import Mathlib

/-!
Verification development for the AarushAI resume-tailoring platform.

The repository ships the CDK infrastructure declaration
(`infra/cdk/lib/resume-tailor-stack.ts`), architecture documentation
(`docs/architecture.md`) and the evaluation-harness documentation
(`ops/evaluation_harness/README.md`).  The evaluation engine
(`ops/evaluation_harness/evaluate.py`), the lambda stage handlers and the
Step Functions definition (`src/stepfunctions/main.asl.json`) are referenced
by the infrastructure code but are not part of the source tree, so those
components are modelled here from the specification; the CDK stack itself is
embedded from its TypeScript source.
-/

/-! ## Text normalization (Modelled from the spec §4.2: lowercase, strip
punctuation, stem; `evaluate.py` is not in the source tree). -/

/-- A character belongs to a word: letters and digits survive punctuation
stripping. -/
def isWordChar (c : Char) : Bool := c.isAlphanum

/-- Accumulator-based tokenizer: splits the character stream on non-word
characters and lowercases every word character.  `acc` holds the characters
of the current word in reverse order. -/
def tokenizeAux : List Char → List Char → List String
  | [], acc => if acc.isEmpty then [] else [String.mk acc.reverse]
  | c :: cs, acc =>
    if isWordChar c then tokenizeAux cs (c.toLower :: acc)
    else if acc.isEmpty then tokenizeAux cs []
    else String.mk acc.reverse :: tokenizeAux cs []

/-- Modelled from the spec: tokenization of free text into lowercase,
punctuation-free words. -/
def tokenizeStr (s : String) : List String := tokenizeAux s.data []

/-- Does `cs` start with the pattern `p`? -/
def listStartsWith : List Char → List Char → Bool
  | [], _ => true
  | _ :: _, [] => false
  | p :: ps, c :: cs => p == c && listStartsWith ps cs

/-- Does `cs` end with the pattern `suffix`? -/
def listEndsWith (suffix cs : List Char) : Bool :=
  listStartsWith suffix.reverse cs.reverse

/-- Does `cs` contain the pattern `pat` as a contiguous run? -/
def listHasSub (pat : List Char) : List Char → Bool
  | [] => pat.isEmpty
  | c :: cs => listStartsWith pat (c :: cs) || listHasSub pat cs

/-- Modelled from the spec: a lightweight suffix-stripping stemmer used by
the coverage, keyword and hallucination checks (the spec fixes only that
targets and text are stemmed, not a stemmer; a plain suffix stripper keeps
the model deterministic and executable). -/
def stemWord (w : String) : String :=
  let cs := w.data
  let n := cs.length
  if listEndsWith "ing".data cs && decide (4 < n) then String.mk (cs.take (n - 3))
  else if listEndsWith "ed".data cs && decide (3 < n) then String.mk (cs.take (n - 2))
  else if listEndsWith "es".data cs && decide (3 < n) then String.mk (cs.take (n - 2))
  else if listEndsWith "s".data cs && decide (3 < n) then String.mk (cs.take (n - 1))
  else w

/-- Modelled from the spec: normalization pipeline — tokenize then stem. -/
def normalizeTokens (s : String) : List String := (tokenizeStr s).map stemWord

/-- Remove duplicates keeping the first occurrence, preserving input order. -/
def dedupFirst (seen : List String) : List String → List String
  | [] => []
  | x :: xs => if x ∈ seen then dedupFirst seen xs else x :: dedupFirst (x :: seen) xs

/-! ## Evaluation engine data model (Modelled from the spec §3/§4.2). -/

/-- Modelled from the spec: structured job-description targets extracted by
PARSE — requirements/responsibilities in JD order, plus the JD skill list. -/
structure JobDescription where
  targets : List String
  skills : List String
deriving DecidableEq

/-- Modelled from the spec: the candidate tailored document — summary text
plus the experience-section bullets. -/
structure TailoredDocument where
  summary : String
  experienceBullets : List String
deriving DecidableEq

/-- Modelled from the spec: retrieval context — evidence snippets used
during GENERATE. -/
structure RetrievalContext where
  snippets : List String
deriving DecidableEq

/-- Modelled from the spec: engine configuration — the explicit configured
keyword list and the competency-evidence indicators feeding the ATS keyword
set. -/
structure EvalConfig where
  configuredKeywords : List String
  competencyIndicators : List String
deriving DecidableEq

/-- The evaluation report produced by the Validate stage, with exactly the
seven documented fields (`ops/evaluation_harness/README.md`, Output Report
Fields).  Scores are exact rationals standing for the JSON numbers. -/
structure EvaluationReport where
  jdCoverage : ℚ
  missingCoverageTargets : List String
  atsKeywordScore : ℚ
  missingAtsKeywords : List String
  hallucinations : List String
  consistency : ℚ
  readabilityGradeLevel : ℚ
deriving DecidableEq

/-- Modelled from the spec: similarity threshold for a target to count as
covered — a configuration constant the spec leaves open (§9); fixed at the
ratio `coverageThresholdNum / coverageThresholdDen` = 1/2. -/
def coverageThresholdNum : Nat := 1

/-- Denominator of the coverage similarity threshold. -/
def coverageThresholdDen : Nat := 2

/-- Modelled from the spec: token-overlap threshold above which a bullet is
attributable to the evidence — a configuration constant the spec leaves
open (§9); fixed at the ratio `evidenceThresholdNum / evidenceThresholdDen`
= 1/2. -/
def evidenceThresholdNum : Nat := 1

/-- Denominator of the evidence-overlap threshold. -/
def evidenceThresholdDen : Nat := 2

/-- All stemmed tokens of the tailored document (summary plus bullets). -/
def docTokens (doc : TailoredDocument) : List String :=
  normalizeTokens doc.summary ++ (doc.experienceBullets.map normalizeTokens).flatten

/-- Modelled from the spec: a JD target is covered when its stemmed token
set overlaps the document token set at a ratio at least the similarity
threshold (the comparison `overlap / total ≥ num / den` is taken in the
cross-multiplied form `num * total ≤ den * overlap`). -/
def coveredTarget (dtoks : List String) (target : String) : Bool :=
  let ts := dedupFirst [] (normalizeTokens target)
  if ts.isEmpty then true
  else decide (coverageThresholdNum * ts.length ≤
    coverageThresholdDen * (ts.filter (fun t => dtoks.contains t)).length)

/-- Number of covered JD targets. -/
def coveredCount (dtoks : List String) (targets : List String) : Nat :=
  (targets.filter (fun t => coveredTarget dtoks t)).length

/-- Modelled from the spec: `jdCoverage` = covered / total targets (an empty
target list counts as fully covered). -/
def jdCoverageScore (dtoks : List String) (targets : List String) : ℚ :=
  if targets.length = 0 then 1
  else (coveredCount dtoks targets : ℚ) / (targets.length : ℚ)

/-- Modelled from the spec: `missingCoverageTargets` lists the uncovered
targets in original JD order. -/
def missingCoverageList (dtoks : List String) (targets : List String) : List String :=
  targets.filter (fun t => !(coveredTarget dtoks t))

/-- Modelled from the spec: a keyword is satisfied when every one of its
stemmed tokens appears among the document tokens. -/
def keywordSatisfied (dtoks : List String) (k : String) : Bool :=
  (normalizeTokens k).all (fun t => dtoks.contains t)

/-- Modelled from the spec: ATS keyword set = JD skills ∪ configured
keywords ∪ competency indicators, first occurrence kept, input order. -/
def atsKeywordList (cfg : EvalConfig) (jd : JobDescription) : List String :=
  dedupFirst [] (jd.skills ++ cfg.configuredKeywords ++ cfg.competencyIndicators)

/-- Number of satisfied ATS keywords. -/
def satisfiedCount (dtoks : List String) (kws : List String) : Nat :=
  (kws.filter (fun k => keywordSatisfied dtoks k)).length

/-- Modelled from the spec: `atsKeywordScore` = satisfied / total keywords
(an empty keyword set scores 1). -/
def atsScore (dtoks : List String) (kws : List String) : ℚ :=
  if kws.length = 0 then 1
  else (satisfiedCount dtoks kws : ℚ) / (kws.length : ℚ)

/-- Modelled from the spec: `missingAtsKeywords` = unsatisfied keywords in
input order. -/
def missingKeywordList (dtoks : List String) (kws : List String) : List String :=
  kws.filter (fun k => !(keywordSatisfied dtoks k))

/-- The JD text used as hallucination evidence: targets and skills. -/
def jdFullText (jd : JobDescription) : String :=
  String.intercalate " " (jd.targets ++ jd.skills)

/-- Evidence token pool: JD text plus every retrieval snippet. -/
def evidenceTokens (jd : JobDescription) (ctx : RetrievalContext) : List String :=
  normalizeTokens (jdFullText jd) ++ (ctx.snippets.map normalizeTokens).flatten

/-- Modelled from the spec: explicit citation marker recognised inside a
bullet. -/
def hasCitationMarker (b : String) : Bool := listHasSub "[cite]".data b.data

/-- Modelled from the spec: a bullet is attributable when it carries a
citation marker or its stemmed token set overlaps the evidence pool at
a ratio at least the evidence-overlap threshold. -/
def attributable (evidence : List String) (b : String) : Bool :=
  hasCitationMarker b ||
    (let bs := dedupFirst [] (normalizeTokens b)
     if bs.isEmpty then true
     else decide (evidenceThresholdNum * bs.length ≤
       evidenceThresholdDen * (bs.filter (fun t => evidence.contains t)).length))

/-- Modelled from the spec: flagged hallucinations = bullets with no
attributable evidence, in document order, each with its statement text. -/
def hallucinationList (evidence : List String) (bullets : List String) : List String :=
  bullets.filter (fun b => !(attributable evidence b))

/-- Clamp a rational into [0, 1]. -/
def clamp01 (q : ℚ) : ℚ := max 0 (min 1 q)

/-- Token counts of the experience bullets, as rationals. -/
def bulletLens (bullets : List String) : List ℚ :=
  bullets.map (fun b => ((tokenizeStr b).length : ℚ))

/-- Arithmetic mean of a list of rationals (0 for the empty list). -/
def meanQ (l : List ℚ) : ℚ := l.sum / (l.length : ℚ)

/-- Population variance of a list of rationals. -/
def varianceQ (l : List ℚ) : ℚ :=
  (l.map (fun x => (x - meanQ l) * (x - meanQ l))).sum / (l.length : ℚ)

/-- Modelled from the spec: consistency = 1 − normalized coefficient of
variation of bullet token counts, clamped to [0,1]; computed with the
squared coefficient (variance / mean²) to stay in exact arithmetic.
Zero or uniform-length bullets score 1. -/
def consistencyScore (bullets : List String) : ℚ :=
  if (bulletLens bullets).length = 0 then 1
  else if meanQ (bulletLens bullets) = 0 then 1
  else clamp01 (1 - varianceQ (bulletLens bullets) /
    (meanQ (bulletLens bullets) * meanQ (bulletLens bullets)))

/-- Count of sentence-terminating punctuation marks. -/
def sentenceCount (s : String) : Nat :=
  (s.data.filter (fun c => c == '.' || c == '!' || c == '?')).length

/-- Is the character a (lowercased) vowel for syllable counting? -/
def isVowelChar (c : Char) : Bool :=
  let l := c.toLower
  l == 'a' || l == 'e' || l == 'i' || l == 'o' || l == 'u' || l == 'y'

/-- Number of maximal vowel runs in a word; every word counts at least one
syllable. -/
def syllableCount (w : String) : Nat :=
  let p := w.data.foldl
    (fun (acc : Nat × Bool) c =>
      if isVowelChar c then (if acc.2 then acc else (acc.1 + 1, true))
      else (acc.1, false))
    (0, false)
  max 1 p.1

/-- Modelled from the spec: Flesch–Kincaid grade level over summary +
experience sections, using standard word/sentence/syllable counts, floored
at 0 so that the grade level is never negative (§8 requires
`readabilityGradeLevel` ≥ 0 for all inputs); empty text scores 0. -/
def readabilityGrade (doc : TailoredDocument) : ℚ :=
  let text := doc.summary ++ " " ++ String.intercalate " " doc.experienceBullets
  let ws := tokenizeStr text
  let w : Nat := ws.length
  let s : Nat := max 1 (sentenceCount text)
  let syl : Nat := (ws.map syllableCount).sum
  if w = 0 then 0
  else max 0 ((39 / 100) * ((w : ℚ) / (s : ℚ)) +
    (118 / 10) * ((syl : ℚ) / (w : ℚ)) - 1559 / 100)

/-- Modelled from the spec: the Evaluation Engine — a pure function from
(JD targets, tailored document, retrieval context) and configuration to an
`EvaluationReport` (`evaluate.py` is not in the source tree; assembled from
§4.2 and `ops/evaluation_harness/README.md`). -/
def evaluate (cfg : EvalConfig) (jd : JobDescription) (doc : TailoredDocument)
    (ctx : RetrievalContext) : EvaluationReport :=
  { jdCoverage := jdCoverageScore (docTokens doc) jd.targets
    missingCoverageTargets := missingCoverageList (docTokens doc) jd.targets
    atsKeywordScore := atsScore (docTokens doc) (atsKeywordList cfg jd)
    missingAtsKeywords := missingKeywordList (docTokens doc) (atsKeywordList cfg jd)
    hallucinations := hallucinationList (evidenceTokens jd ctx) doc.experienceBullets
    consistency := consistencyScore doc.experienceBullets
    readabilityGradeLevel := readabilityGrade doc }

/-! ## Wire format (Modelled from the spec §6: evaluation report wire
format, and the README example JSON). -/

/-- A JSON value, as emitted on the evaluation-report wire: numbers are the
exact rationals the engine computed. -/
inductive JsonVal where
  | num (q : ℚ)
  | str (s : String)
  | arr (xs : List JsonVal)
  | obj (fields : List (String × JsonVal))

/-- Is the JSON value a string? -/
def isStrJson : JsonVal → Bool
  | .str _ => true
  | _ => false

/-- Is the JSON value a flat array of strings? -/
def isStrArrJson : JsonVal → Bool
  | .arr xs => xs.all isStrJson
  | _ => false

/-- Is the JSON value a number? -/
def isNumJson : JsonVal → Bool
  | .num _ => true
  | _ => false

/-- Modelled from the spec: serialization of an evaluation report to the
wire object — a flat object with exactly the seven documented fields, in
the README's order. -/
def reportToJson (r : EvaluationReport) : JsonVal :=
  .obj [("jdCoverage", .num r.jdCoverage),
        ("missingCoverageTargets", .arr (r.missingCoverageTargets.map .str)),
        ("atsKeywordScore", .num r.atsKeywordScore),
        ("missingAtsKeywords", .arr (r.missingAtsKeywords.map .str)),
        ("hallucinations", .arr (r.hallucinations.map .str)),
        ("consistency", .num r.consistency),
        ("readabilityGradeLevel", .num r.readabilityGradeLevel)]

/-- The field names of a JSON object (empty for non-objects). -/
def jsonFieldKeys : JsonVal → List String
  | .obj fields => fields.map Prod.fst
  | _ => []

/-- The exact wire shape required of an evaluation report: a flat object
whose fields are exactly the seven documented ones — `jdCoverage` (number),
`missingCoverageTargets` (array of string), `atsKeywordScore` (number),
`missingAtsKeywords` (array of string), `hallucinations` (array of string),
`consistency` (number), `readabilityGradeLevel` (number) — none missing,
renamed, nested, or added. -/
def isFlatReportShape : JsonVal → Bool
  | .obj [(k1, v1), (k2, v2), (k3, v3), (k4, v4), (k5, v5), (k6, v6), (k7, v7)] =>
      (k1 == "jdCoverage") && isNumJson v1 &&
      (k2 == "missingCoverageTargets") && isStrArrJson v2 &&
      (k3 == "atsKeywordScore") && isNumJson v3 &&
      (k4 == "missingAtsKeywords") && isStrArrJson v4 &&
      (k5 == "hallucinations") && isStrArrJson v5 &&
      (k6 == "consistency") && isNumJson v6 &&
      (k7 == "readabilityGradeLevel") && isNumJson v7
  | _ => false

/-- Exact textual rendering of a rational, for byte-level comparison. -/
def renderRat (q : ℚ) : String := toString q.num ++ "/" ++ toString q.den

/-- Exact textual rendering of a string array. -/
def renderStrList (l : List String) : String :=
  "[" ++ String.intercalate "," l ++ "]"

/-- Byte-level rendering of a report: the serialized JSON text whose bytes
downstream consumers compare. -/
def renderReport (r : EvaluationReport) : String :=
  "\x7b" ++ "jdCoverage:" ++ renderRat r.jdCoverage ++
  ",missingCoverageTargets:" ++ renderStrList r.missingCoverageTargets ++
  ",atsKeywordScore:" ++ renderRat r.atsKeywordScore ++
  ",missingAtsKeywords:" ++ renderStrList r.missingAtsKeywords ++
  ",hallucinations:" ++ renderStrList r.hallucinations ++
  ",consistency:" ++ renderRat r.consistency ++
  ",readabilityGradeLevel:" ++ renderRat r.readabilityGradeLevel ++ "\x7d"

/-- An ambient world an impure engine could observe: a random seed, a
clock reading, and a stream of responses from external calls.  The
evaluation engine is given one to show it ignores it. -/
structure AmbientWorld where
  randomSeed : Nat
  clockMillis : Nat
  externalResponses : Nat → String
  -- no DecidableEq: the function field is irrelevant to the engine

/-- Modelled from the spec: one invocation of the Evaluation Engine inside
an ambient world.  The engine is pure — the world is never consulted
(§4.2 Determinism: no randomness, no external calls). -/
def evaluateInWorld (_w : AmbientWorld) (cfg : EvalConfig) (jd : JobDescription)
    (doc : TailoredDocument) (ctx : RetrievalContext) : EvaluationReport :=
  evaluate cfg jd doc ctx

/-! ## Job orchestrator state machine (Modelled from the spec §4.1/§5; the
Step Functions definition `src/stepfunctions/main.asl.json` is referenced by
the CDK stack but is not in the source tree). -/

/-- The orchestration states, in the fixed pipeline order, plus the two
terminal states. -/
inductive Stage where
  | INTAKE | PARSE | EMBED | RETRIEVE | GENERATE | VALIDATE
  | RENDER | PERSIST | DONE | FAILED | CANCELLED
deriving DecidableEq

/-- Terminal states: `DONE`, `FAILED`, `CANCELLED`. -/
def Stage.isTerminal : Stage → Bool
  | .DONE | .FAILED | .CANCELLED => true
  | _ => false

/-- Position of a stage in the fixed pipeline order (terminal failure
states sit past `DONE`). -/
def Stage.position : Stage → Nat
  | .INTAKE => 0 | .PARSE => 1 | .EMBED => 2 | .RETRIEVE => 3
  | .GENERATE => 4 | .VALIDATE => 5 | .RENDER => 6 | .PERSIST => 7
  | .DONE => 8 | .FAILED => 9 | .CANCELLED => 10

/-- Successor in the fixed stage order; terminal states are fixed points. -/
def nextStage : Stage → Stage
  | .INTAKE => .PARSE | .PARSE => .EMBED | .EMBED => .RETRIEVE
  | .RETRIEVE => .GENERATE | .GENERATE => .VALIDATE | .VALIDATE => .RENDER
  | .RENDER => .PERSIST | .PERSIST => .DONE
  | .DONE => .DONE | .FAILED => .FAILED | .CANCELLED => .CANCELLED

/-- Tagged reasons a job can fail with (spec §4.1, §4.4, §6). -/
inductive FailureReason where
  | InputMissing | UnreadableDocument | EmbeddingUnavailable | IndexUnavailable
  | GenerationBlocked | RenderFailed | QualityGateExceeded | Timeout
deriving DecidableEq

/-- Modelled from the spec: the persisted per-job orchestration state —
current stage, gap-fill cycle count, the pending gap-fill directive
(missing targets, missing keywords), the failure reason of a failed job,
and whether a cancel request is pending. -/
structure JobState where
  stage : Stage
  gapFillCount : Nat
  gapFillDirective : Option (List String × List String)
  failureReason : Option FailureReason
  cancelRequested : Bool
deriving DecidableEq

/-- A freshly created job enters the pipeline at `INTAKE`. -/
def initialJob : JobState :=
  { stage := .INTAKE, gapFillCount := 0, gapFillDirective := none,
    failureReason := none, cancelRequested := false }

/-- Quality-gate coverage threshold (spec §4.1, README review checklist:
JD coverage ≥ 0.7), given as the literal rational 7/10. -/
def coverageGateThreshold : ℚ := ⟨7, 10, by norm_num, by norm_num⟩

/-- Quality-gate keyword threshold (spec §4.1, README review checklist:
ATS keyword score ≥ 0.6), given as the literal rational 3/5 = 0.6. -/
def keywordGateThreshold : ℚ := ⟨3, 5, by norm_num, by norm_num⟩

/-- Maximum number of gap-fill re-generation cycles (spec §4.1). -/
def maxGapFillCycles : Nat := 2

/-- Modelled from the spec: the quality gate — the report passes when
coverage ≥ 0.7, keyword score ≥ 0.6, and no unresolved hallucination
remains. -/
def gatePasses (r : EvaluationReport) : Bool :=
  decide (coverageGateThreshold ≤ r.jdCoverage) &&
  decide (keywordGateThreshold ≤ r.atsKeywordScore) &&
  r.hallucinations.isEmpty

/-- Events the orchestrator reacts to: completion or terminal failure of
the current stage's executor call, the Validate stage handing back a
report, an explicit cancel request, and expiry of the job-level timeout. -/
inductive JobEvent where
  | stageSucceeded
  | stageFailed (reason : FailureReason)
  | validated (report : EvaluationReport)
  | cancelRequested
  | timeoutExpired

/-- Modelled from the spec: handling of the Validate stage's report — pass
moves to `RENDER`; a failed gate within the cycle bound re-enters
`GENERATE` with a gap-fill directive built from the report's missing
targets and keywords; past the bound the job fails with
`QualityGateExceeded`. -/
def applyValidated (s : JobState) (r : EvaluationReport) : JobState :=
  if gatePasses r then { s with stage := .RENDER, gapFillDirective := none }
  else if s.gapFillCount < maxGapFillCycles then
    { s with stage := .GENERATE, gapFillCount := s.gapFillCount + 1,
             gapFillDirective := some (r.missingCoverageTargets, r.missingAtsKeywords) }
  else { s with stage := .FAILED, failureReason := some .QualityGateExceeded }

/-- Modelled from the spec: one orchestrator transition.  Terminal states
absorb every event; a cancel request is recorded and settles the job into
`CANCELLED` at the next transition check; timeout expiry forces `FAILED`
regardless of the in-flight call; stage success advances along the fixed
order; stage failure fails the job with its tagged reason. -/
def step (s : JobState) (e : JobEvent) : JobState :=
  if s.stage.isTerminal then s
  else match e with
    | .cancelRequested => { s with cancelRequested := true }
    | .timeoutExpired => { s with stage := .FAILED, failureReason := some .Timeout }
    | .stageFailed reason =>
        if s.cancelRequested then { s with stage := .CANCELLED }
        else { s with stage := .FAILED, failureReason := some reason }
    | .stageSucceeded =>
        if s.cancelRequested then { s with stage := .CANCELLED }
        else if s.stage = .VALIDATE then s
        else { s with stage := nextStage s.stage }
    | .validated r =>
        if s.cancelRequested then { s with stage := .CANCELLED }
        else if s.stage = .VALIDATE then applyValidated s r
        else s

/-- Job states reachable from intake by orchestrator transitions. -/
inductive Reachable : JobState → Prop where
  | init : Reachable initialJob
  | next (s : JobState) (e : JobEvent) (h : Reachable s) : Reachable (step s e)

/-! ## Stage dispatch and the job store (Modelled from the spec §4.1
re-entry/idempotency and §4.3; the lambda handlers are not in the source
tree). -/

/-- Modelled from the spec: a StageExecution row — stage name, attempt
number, completion status and stored result payload, keyed under the job. -/
structure StageExecutionRecord where
  jobId : String
  stage : Stage
  attempt : Nat
  completed : Bool
  payload : Option String
deriving DecidableEq

/-- Modelled from the spec: the per-job slice of the Job Store — the job id,
the job's current stage, and the StageExecution history. -/
structure JobStore where
  jobId : String
  jobStage : Stage
  executions : List StageExecutionRecord
deriving DecidableEq

/-- The stored record of an already-completed execution of `stage`, if
any. -/
def findCompleted (store : JobStore) (stage : Stage) : Option StageExecutionRecord :=
  store.executions.find? (fun r => decide (r.stage = stage) && r.completed)

/-- Modelled from the spec: dispatch of one stage call keyed by
`(jobId, stage, attempt)`.  A duplicate invocation for an already-completed
`(jobId, stage)` is a no-op returning the stored result; otherwise the
capability is invoked (`exec`), the StageExecution row is recorded, and on
success the job's stage advances. -/
def dispatch (exec : Stage → Option String) (store : JobStore) (stage : Stage)
    (attempt : Nat) : JobStore × Option String :=
  match findCompleted store stage with
  | some r => (store, r.payload)
  | none =>
    match exec stage with
    | some payload =>
      ({ store with
          executions := store.executions ++
            [{ jobId := store.jobId, stage := stage, attempt := attempt,
               completed := true, payload := some payload }],
          jobStage := nextStage store.jobStage }, some payload)
    | none =>
      ({ store with
          executions := store.executions ++
            [{ jobId := store.jobId, stage := stage, attempt := attempt,
               completed := false, payload := none }] }, none)

/-! ## Timed orchestration (Modelled from the spec §5: a job-level timeout
bounds total wall-clock time; the timeout value itself is embedded from
`infra/cdk/lib/resume-tailor-stack.ts`). -/

/-- Embedded from `infra/cdk/lib/resume-tailor-stack.ts`: the state machine
is declared with `timeout: Duration.minutes(15)`. -/
def stateMachineTimeoutMinutes : Nat := 15

/-- A job together with the wall-clock minutes elapsed since its execution
started. -/
structure TimedJob where
  job : JobState
  elapsedMinutes : Nat
deriving DecidableEq

/-- Events of the timed semantics: wall-clock time passing, or an
orchestrator event. -/
inductive TimedEvent where
  | elapse (minutes : Nat)
  | act (e : JobEvent)

/-- A fresh execution starts at elapsed time zero. -/
def initialTimedJob : TimedJob := { job := initialJob, elapsedMinutes := 0 }

/-- Modelled from the spec: the timed transition.  When the clock passes
the job-level timeout while the job is non-terminal, the orchestrator
immediately applies the timeout expiry, failing the job regardless of any
in-flight stage call; orchestrator events leave the clock unchanged. -/
def timedStep (t : TimedJob) (e : TimedEvent) : TimedJob :=
  match e with
  | .elapse m =>
    let elapsed2 := t.elapsedMinutes + m
    if t.job.stage.isTerminal then { t with elapsedMinutes := elapsed2 }
    else if stateMachineTimeoutMinutes ≤ elapsed2 then
      { job := step t.job .timeoutExpired, elapsedMinutes := elapsed2 }
    else { t with elapsedMinutes := elapsed2 }
  | .act e => { t with job := step t.job e }

/-- Timed executions reachable from the start of a job. -/
inductive TimedReachable : TimedJob → Prop where
  | init : TimedReachable initialTimedJob
  | next (t : TimedJob) (e : TimedEvent) (h : TimedReachable t) :
      TimedReachable (timedStep t e)

/-! ## CDK stack embedding (from `infra/cdk/lib/resume-tailor-stack.ts`). -/

/-- The deploy-time resource names and ARNs the stack wires into the Lambda
environment (bucket names, table names, the state machine ARN). -/
structure ResourceNames where
  uploadBucketName : String
  artifactBucketName : String
  jobsTableName : String
  feedbackTableName : String
  stateMachineArn : String
deriving DecidableEq

/-- Embedded from `resume-tailor-stack.ts` (`lambdaEnv`): the shared
environment map handed to every Lambda the stack creates. -/
def lambdaEnv (n : ResourceNames) : List (String × String) :=
  [("UPLOAD_BUCKET_NAME", n.uploadBucketName),
   ("ARTIFACT_BUCKET_NAME", n.artifactBucketName),
   ("JOB_TABLE_NAME", n.jobsTableName),
   ("FEEDBACK_TABLE_NAME", n.feedbackTableName),
   ("VECTOR_COLLECTION_NAME", "resume-tailor-vectors"),
   ("VECTOR_INDEX_NAME", "resume-tailor-index"),
   ("BEDROCK_GUARDRAIL_ARN", "arn:aws:bedrock:region:account:guardrail/resume-tailor"),
   ("DEFAULT_TENANT_KEY", "tenantId"),
   ("ARTIFACT_TTL_DAYS", "7")]

/-- Embedded from `resume-tailor-stack.ts`: the configuration of one Lambda
function as the stack declares it. -/
structure LambdaFunctionDef where
  id : String
  handler : String
  folder : String
  memorySize : Nat
  timeoutMinutes : Nat
  environment : List (String × String)
deriving DecidableEq

/-- Embedded from `resume-tailor-stack.ts` (`createLambda`): every function
is created with 1024 MB, a 5-minute timeout and the shared environment. -/
def createLambda (env : List (String × String)) (id handler folder : String) :
    LambdaFunctionDef :=
  { id := id, handler := handler, folder := folder,
    memorySize := 1024, timeoutMinutes := 5, environment := env }

/-- Embedded from the CDK semantics of `fn.addEnvironment(key, value)`:
set or override a single environment entry. -/
def addEnvironment (fn : LambdaFunctionDef) (key value : String) :
    LambdaFunctionDef :=
  { fn with environment :=
      (fn.environment.filter (fun kv => !(kv.1 == key))) ++ [(key, value)] }

/-- Embedded from `resume-tailor-stack.ts`: the seven Lambda functions the
stack creates — the six stage handlers and the API handler (which
additionally receives `STATE_MACHINE_ARN`, first as a placeholder and then
as the resolved ARN). -/
def resumeTailorStackLambdas (n : ResourceNames) : List LambdaFunctionDef :=
  let env := lambdaEnv n
  [createLambda env "ParseLambda" "app.lambda_handler" "parse_handler",
   createLambda env "EmbedLambda" "app.lambda_handler" "embed_handler",
   createLambda env "RetrieveLambda" "app.lambda_handler" "retrieve_handler",
   createLambda env "GenerateLambda" "app.lambda_handler" "generate_handler",
   createLambda env "ValidateLambda" "app.lambda_handler" "validate_handler",
   createLambda env "RenderLambda" "app.lambda_handler" "render_handler",
   addEnvironment
     (addEnvironment (createLambda env "ApiLambda" "app.lambda_handler" "api_handlers")
       "STATE_MACHINE_ARN" "STATE_MACHINE_ARN_PLACEHOLDER")
     "STATE_MACHINE_ARN" n.stateMachineArn]

/-- Look up an environment variable in a Lambda environment map. -/
def envLookup (env : List (String × String)) (key : String) : Option String :=
  (env.find? (fun kv => kv.1 == key)).map Prod.snd

/-! ## Concrete demonstration inputs used by the witnesses. -/

/-- A concrete parsed JD with the README's two coverage targets. -/
def demoJd : JobDescription :=
  { targets := ["Build data governance dashboards",
                "Define stakeholder communication cadences"],
    skills := ["Snowflake"] }

/-- A concrete tailored document that covers neither demo target. -/
def demoDoc : TailoredDocument :=
  { summary := "managed payroll systems", experienceBullets := [] }

/-- A concrete engine configuration with no extra keywords. -/
def demoCfg : EvalConfig := { configuredKeywords := [], competencyIndicators := [] }

/-- A concrete empty retrieval context. -/
def demoCtx : RetrievalContext := { snippets := [] }

/-- A concrete report that fails the quality gate: zero coverage, zero
keyword score, and one unresolved hallucination. -/
def demoFailingReport : EvaluationReport :=
  { jdCoverage := 0,
    missingCoverageTargets := ["Build data governance dashboards"],
    atsKeywordScore := 0,
    missingAtsKeywords := ["Snowflake"],
    hallucinations := ["Led a team of five hundred"],
    consistency := 1,
    readabilityGradeLevel := 9 }

/-- A concrete job waiting at `VALIDATE` after two gap-fill cycles. -/
def demoValidateState : JobState :=
  { stage := .VALIDATE, gapFillCount := 2,
    gapFillDirective := some (["Build data governance dashboards"], ["Snowflake"]),
    failureReason := none, cancelRequested := false }

/-- A concrete job waiting at `VALIDATE` before any gap-fill cycle. -/
def demoFreshValidateState : JobState :=
  { stage := .VALIDATE, gapFillCount := 0, gapFillDirective := none,
    failureReason := none, cancelRequested := false }

/-- A concrete stage environment whose every call succeeds with the payload
`ok`. -/
def demoExec : Stage → Option String := fun _ => some "ok"

/-- A concrete job-store slice: job `job-1` at `PARSE` with no executions
recorded yet. -/
def demoStore : JobStore := { jobId := "job-1", jobStage := .PARSE, executions := [] }

/-- A concrete ambient world. -/
def demoWorld1 : AmbientWorld :=
  { randomSeed := 17, clockMillis := 1000, externalResponses := fun _ => "alpha" }

/-- A different concrete ambient world. -/
def demoWorld2 : AmbientWorld :=
  { randomSeed := 23, clockMillis := 99999, externalResponses := fun _ => "beta" }

/-! ## Helper lemmas. -/

/-- A ratio of a count over a larger count lies in the unit interval. -/
theorem unitRatio (a b : Nat) (hab : a ≤ b) :
    0 ≤ ((a : ℚ) / (b : ℚ)) ∧ ((a : ℚ) / (b : ℚ)) ≤ 1 := by
  rcases Nat.eq_zero_or_pos b with hb | hb
  · subst hb
    have ha : a = 0 := Nat.le_zero.mp hab
    simp [ha]
  · have hb' : (0 : ℚ) < (b : ℚ) := by exact_mod_cast hb
    exact ⟨div_nonneg (by positivity) hb'.le,
      (div_le_one hb').2 (by exact_mod_cast hab)⟩

/-- The clamp lands in the unit interval. -/
theorem clamp01_bounds (q : ℚ) : 0 ≤ clamp01 q ∧ clamp01 q ≤ 1 :=
  ⟨le_max_left 0 _, max_le (by norm_num) (min_le_left 1 q)⟩

/-- Coverage scores lie in the unit interval. -/
theorem jdCoverageScore_bounds (dtoks targets : List String) :
    0 ≤ jdCoverageScore dtoks targets ∧ jdCoverageScore dtoks targets ≤ 1 := by
  unfold jdCoverageScore
  split_ifs with h
  · norm_num
  · exact unitRatio _ _ (List.length_filter_le _ _)

/-- ATS scores lie in the unit interval. -/
theorem atsScore_bounds (dtoks kws : List String) :
    0 ≤ atsScore dtoks kws ∧ atsScore dtoks kws ≤ 1 := by
  unfold atsScore
  split_ifs with h
  · norm_num
  · exact unitRatio _ _ (List.length_filter_le _ _)

/-- Consistency lies in the unit interval. -/
theorem consistencyScore_bounds (bullets : List String) :
    0 ≤ consistencyScore bullets ∧ consistencyScore bullets ≤ 1 := by
  unfold consistencyScore
  split_ifs with h1 h2
  · norm_num
  · norm_num
  · exact clamp01_bounds _

/-- The readability grade is never negative. -/
theorem readabilityGrade_nonneg (doc : TailoredDocument) :
    0 ≤ readabilityGrade doc := by
  unfold readabilityGrade
  dsimp only
  split_ifs with h
  · norm_num
  · exact le_max_left 0 _

/-- Mapped string constructors always form a string array. -/
theorem allStrJson_map (l : List String) :
    (l.map JsonVal.str).all isStrJson = true := by
  induction l with
  | nil => rfl
  | cons x xs ih => simp [isStrJson, ih]

/-- Terminal states absorb every event. -/
theorem step_terminal_absorb (s : JobState) (e : JobEvent)
    (h : s.stage.isTerminal = true) : step s e = s := by
  simp [step, h]

/-- One transition never pushes the gap-fill count past the bound. -/
theorem step_gapFill_le (s : JobState) (e : JobEvent)
    (h : s.gapFillCount ≤ maxGapFillCycles) :
    (step s e).gapFillCount ≤ maxGapFillCycles := by
  cases e <;> simp only [step, applyValidated] <;> split_ifs <;> simp_all <;> omega

/-- Every reachable job respects the gap-fill bound. -/
theorem reachable_gapFill_le (s : JobState) (h : Reachable s) :
    s.gapFillCount ≤ maxGapFillCycles := by
  induction h with
  | init => simp [initialJob]
  | next s e h ih => exact step_gapFill_le s e ih

/-- The demonstration report fails the quality gate. -/
theorem demoFailingReport_fails : gatePasses demoFailingReport = false := by decide

/-- The two-cycle `VALIDATE` state is reachable from intake: succeed through
`INTAKE`–`GENERATE`, fail validation twice (two gap-fill re-entries), and
succeed the third `GENERATE`. -/
theorem demoValidateState_reachable : Reachable demoValidateState := by
  have h1 := Reachable.next _ JobEvent.stageSucceeded Reachable.init
  have h2 := Reachable.next _ JobEvent.stageSucceeded h1
  have h3 := Reachable.next _ JobEvent.stageSucceeded h2
  have h4 := Reachable.next _ JobEvent.stageSucceeded h3
  have h5 := Reachable.next _ JobEvent.stageSucceeded h4
  have h6 := Reachable.next _ (JobEvent.validated demoFailingReport) h5
  have h7 := Reachable.next _ JobEvent.stageSucceeded h6
  have h8 := Reachable.next _ (JobEvent.validated demoFailingReport) h7
  have h9 := Reachable.next _ JobEvent.stageSucceeded h8
  exact h9

/-- A duplicate dispatch for a completed stage is a pure lookup. -/
theorem dispatch_completed (exec : Stage → Option String) (store : JobStore)
    (stage : Stage) (attempt : Nat) (r : StageExecutionRecord)
    (hfind : findCompleted store stage = some r) :
    dispatch exec store stage attempt = (store, r.payload) := by
  simp [dispatch, hfind]

/-- After the timeout has expired, a non-terminal job's forced transition
lands in `FAILED`. -/
theorem step_timeout_terminal (s : JobState) (h : s.stage.isTerminal = false) :
    (step s .timeoutExpired).stage = Stage.FAILED := by
  simp [step, h]

/-- Timed invariant: past the job-level timeout every reachable execution
is terminal. -/
theorem timed_invariant (t : TimedJob) (h : TimedReachable t) :
    stateMachineTimeoutMinutes ≤ t.elapsedMinutes → t.job.stage.isTerminal = true := by
  induction h with
  | init => intro hh; simp [initialTimedJob, stateMachineTimeoutMinutes] at hh
  | next t e h ih =>
    cases e with
    | elapse m =>
      intro hh
      cases hterm : t.job.stage.isTerminal with
      | true => simp [timedStep, hterm]
      | false =>
        by_cases htime : stateMachineTimeoutMinutes ≤ t.elapsedMinutes + m
        · have h1 := step_timeout_terminal t.job hterm
          have h2 : Stage.FAILED.isTerminal = true := rfl
          simp [timedStep, hterm, htime, h1, h2]
        · exfalso
          simp [timedStep, hterm, htime] at hh
    | act e1 =>
      intro hh
      have hht : stateMachineTimeoutMinutes ≤ t.elapsedMinutes := by
        simpa [timedStep] using hh
      have hterm := ih hht
      simp [timedStep, step_terminal_absorb _ _ hterm, hterm]

/-! ## Claim theorems. -/

/-- C1: for every (JD, document, context, configuration) input, the
serialized evaluation report is a flat object with exactly the seven
documented fields — `jdCoverage` (number), `missingCoverageTargets` (array
of string), `atsKeywordScore` (number), `missingAtsKeywords` (array of
string), `hallucinations` (array of string), `consistency` (number),
`readabilityGradeLevel` (number) — in that order, with no field missing,
renamed, nested, or added. -/
theorem report_wire_shape (cfg : EvalConfig) (jd : JobDescription)
    (doc : TailoredDocument) (ctx : RetrievalContext) :
    isFlatReportShape (reportToJson (evaluate cfg jd doc ctx)) = true ∧
    jsonFieldKeys (reportToJson (evaluate cfg jd doc ctx)) =
      ["jdCoverage", "missingCoverageTargets", "atsKeywordScore",
       "missingAtsKeywords", "hallucinations", "consistency",
       "readabilityGradeLevel"] := by
  constructor
  · simp [reportToJson, isFlatReportShape, isStrArrJson, isNumJson, allStrJson_map]
  · rfl

/-- C2: for every evaluation report, the quality gate passes exactly when
jdCoverage ≥ 0.7 (= 7/10), atsKeywordScore ≥ 0.6 (= 6/10) and the
unresolved-hallucination list is empty; and whenever the gate fails for a
non-cancelled job at `VALIDATE` that is within the gap-fill bound, the job
re-enters `GENERATE` carrying a gap-fill directive built from
`missingCoverageTargets` and `missingAtsKeywords`, rather than failing
immediately. -/
theorem quality_gate_iff_and_gapfill (r : EvaluationReport) (s : JobState)
    (hs : s.stage = .VALIDATE) (hc : s.cancelRequested = false)
    (hb : s.gapFillCount < maxGapFillCycles) :
    coverageGateThreshold = 7 / 10 ∧ keywordGateThreshold = 6 / 10 ∧
    (gatePasses r = true ↔ (coverageGateThreshold ≤ r.jdCoverage ∧
      keywordGateThreshold ≤ r.atsKeywordScore ∧ r.hallucinations = [])) ∧
    (gatePasses r = false →
      (step s (.validated r)).stage = .GENERATE ∧
      (step s (.validated r)).gapFillDirective =
        some (r.missingCoverageTargets, r.missingAtsKeywords) ∧
      (step s (.validated r)).stage ≠ .FAILED) := by
  have hterm : s.stage.isTerminal = false := by rw [hs]; rfl
  refine ⟨?_, ?_, ?_, fun hf => ?_⟩
  · norm_num [coverageGateThreshold, Rat.mk'_eq_divInt, Rat.divInt_eq_div]
  · norm_num [keywordGateThreshold, Rat.mk'_eq_divInt, Rat.divInt_eq_div]
  · simp [gatePasses, Bool.and_eq_true, decide_eq_true_eq, List.isEmpty_iff, and_assoc]
  · refine ⟨?_, ?_, ?_⟩ <;>
      simp [step, hterm, hc, hs, applyValidated, hf, hb, Stage.isTerminal]

/-- C3: in every reachable job state the number of gap-fill cycles is at
most 2, and a job at `VALIDATE` that has already used both cycles and
receives another gate-failing report transitions to the terminal `FAILED`
state with reason `QualityGateExceeded`. -/
theorem gapfill_cycle_bound (s : JobState) (r : EvaluationReport)
    (h : Reachable s) :
    s.gapFillCount ≤ maxGapFillCycles ∧
    ((s.stage = .VALIDATE ∧ s.cancelRequested = false ∧
      s.gapFillCount = maxGapFillCycles ∧ gatePasses r = false) →
      (step s (.validated r)).stage = .FAILED ∧
      (step s (.validated r)).failureReason = some .QualityGateExceeded) := by
  refine ⟨reachable_gapFill_le s h, ?_⟩
  rintro ⟨hv, hc, hm, hf⟩
  have hterm : s.stage.isTerminal = false := by rw [hv]; rfl
  constructor <;> simp [step, hterm, hc, hv, applyValidated, hf, hm, Stage.isTerminal]

/-- C4: from every non-terminal state a transition either keeps the stage,
advances it to the unique successor in the fixed order
`INTAKE → PARSE → EMBED → RETRIEVE → GENERATE → VALIDATE → RENDER →
PERSIST → DONE` (the successor's position is exactly one higher), or moves
to `FAILED`/`CANCELLED`; the only regression is the gap-fill re-entry
`VALIDATE → GENERATE`; moreover `FAILED` and `CANCELLED` are reachable from
every non-terminal state (via timeout expiry and via a cancel request
settled at the next transition check). -/
theorem stage_monotone (s : JobState) (e : JobEvent)
    (hnt : s.stage.isTerminal = false) :
    ((step s e).stage = s.stage ∨ (step s e).stage = nextStage s.stage ∨
     (step s e).stage = .FAILED ∨ (step s e).stage = .CANCELLED ∨
     (s.stage = .VALIDATE ∧ (step s e).stage = .GENERATE)) ∧
    Stage.position (nextStage s.stage) = Stage.position s.stage + 1 ∧
    (step s .timeoutExpired).stage = .FAILED ∧
    (step (step s .cancelRequested) .stageSucceeded).stage = .CANCELLED := by
  refine ⟨?_, ?_, ?_, ?_⟩
  · cases e with
    | cancelRequested => simp [step, hnt]
    | timeoutExpired => simp [step, hnt]
    | stageFailed reason =>
      by_cases hc : s.cancelRequested <;> simp [step, hnt, hc]
    | stageSucceeded =>
      by_cases hc : s.cancelRequested
      · simp [step, hnt, hc]
      · by_cases hv : s.stage = .VALIDATE <;> simp [step, hnt, hc, hv]
    | validated r =>
      by_cases hc : s.cancelRequested
      · simp [step, hnt, hc]
      · by_cases hv : s.stage = .VALIDATE
        · by_cases hg : gatePasses r
          · simp [step, hnt, hc, hv, applyValidated, hg, nextStage, Stage.isTerminal]
          · by_cases hb : s.gapFillCount < maxGapFillCycles <;>
              simp [step, hnt, hc, hv, applyValidated, hg, hb, Stage.isTerminal]
        · simp [step, hnt, hc, hv]
  · cases hstage : s.stage <;> simp_all [nextStage, Stage.position, Stage.isTerminal]
  · simp [step, hnt]
  · simp [step, hnt]

/-- C5: the Evaluation Engine is deterministic — two invocations on an
identical (JD, document, context, configuration) quadruple in arbitrary
ambient worlds (different random seeds, clocks, and external responses)
produce byte-identical rendered reports. -/
theorem engine_deterministic (w1 w2 : AmbientWorld) (cfg : EvalConfig)
    (jd : JobDescription) (doc : TailoredDocument) (ctx : RetrievalContext) :
    renderReport (evaluateInWorld w1 cfg jd doc ctx) =
      renderReport (evaluateInWorld w2 cfg jd doc ctx) := rfl

/-- C6: for every input, the produced report satisfies
0 ≤ jdCoverage ≤ 1, 0 ≤ atsKeywordScore ≤ 1, 0 ≤ consistency ≤ 1, and
readabilityGradeLevel ≥ 0. -/
theorem report_metric_bounds (cfg : EvalConfig) (jd : JobDescription)
    (doc : TailoredDocument) (ctx : RetrievalContext) :
    0 ≤ (evaluate cfg jd doc ctx).jdCoverage ∧
    (evaluate cfg jd doc ctx).jdCoverage ≤ 1 ∧
    0 ≤ (evaluate cfg jd doc ctx).atsKeywordScore ∧
    (evaluate cfg jd doc ctx).atsKeywordScore ≤ 1 ∧
    0 ≤ (evaluate cfg jd doc ctx).consistency ∧
    (evaluate cfg jd doc ctx).consistency ≤ 1 ∧
    0 ≤ (evaluate cfg jd doc ctx).readabilityGradeLevel :=
  ⟨(jdCoverageScore_bounds _ _).1, (jdCoverageScore_bounds _ _).2,
    (atsScore_bounds _ _).1, (atsScore_bounds _ _).2,
    (consistencyScore_bounds _).1, (consistencyScore_bounds _).2,
    readabilityGrade_nonneg _⟩

/-- C7: stage dispatch is idempotent — after a first successful dispatch of
a stage that had no completed record, dispatching the same
(jobId, stage, attempt) key again is a no-op: it returns the stored result
of the completed (jobId, stage) with the store unchanged (so no duplicate
StageExecution record is created), and the job's stage, advanced exactly
once by the first dispatch, is not advanced a second time. -/
theorem dispatch_idempotent (exec : Stage → Option String) (store : JobStore)
    (stage : Stage) (attempt : Nat) (p : String)
    (hexec : exec stage = some p) (hnew : findCompleted store stage = none) :
    dispatch exec (dispatch exec store stage attempt).1 stage attempt =
      ((dispatch exec store stage attempt).1, some p) ∧
    (dispatch exec store stage attempt).1.executions.length =
      store.executions.length + 1 ∧
    (dispatch exec store stage attempt).1.jobStage = nextStage store.jobStage := by
  have h1 : dispatch exec store stage attempt =
      ({ jobId := store.jobId, jobStage := nextStage store.jobStage,
         executions := store.executions ++
           [{ jobId := store.jobId, stage := stage, attempt := attempt,
              completed := true, payload := some p }] }, some p) := by
    simp [dispatch, hnew, hexec]
  have hfind : findCompleted (dispatch exec store stage attempt).1 stage =
      some { jobId := store.jobId, stage := stage, attempt := attempt,
             completed := true, payload := some p } := by
    simp only [findCompleted] at hnew
    simp [h1, findCompleted, List.find?_append, hnew]
  refine ⟨?_, ?_, ?_⟩
  · rw [dispatch_completed exec _ stage attempt _ hfind]
  · simp [h1]
  · simp [h1]

/-- C8: with the JD targets "Build data governance dashboards" and "Define
stakeholder communication cadences", and a tailored document covering
neither, the engine emits jdCoverage = 0.0 and missingCoverageTargets
containing exactly both strings in their original JD order. -/
theorem coverage_example_both_missing (cfg : EvalConfig) (jd : JobDescription)
    (doc : TailoredDocument) (ctx : RetrievalContext)
    (ht : jd.targets = ["Build data governance dashboards",
                        "Define stakeholder communication cadences"])
    (h1 : coveredTarget (docTokens doc) "Build data governance dashboards" = false)
    (h2 : coveredTarget (docTokens doc) "Define stakeholder communication cadences" = false) :
    (evaluate cfg jd doc ctx).jdCoverage = 0 ∧
    (evaluate cfg jd doc ctx).missingCoverageTargets =
      ["Build data governance dashboards", "Define stakeholder communication cadences"] := by
  constructor
  · show jdCoverageScore (docTokens doc) jd.targets = 0
    rw [ht]
    simp [jdCoverageScore, coveredCount, List.filter, h1, h2]
  · show missingCoverageList (docTokens doc) jd.targets = _
    rw [ht]
    simp [missingCoverageList, List.filter, h1, h2]

/-- C9: the job-level timeout is 15 minutes (declared on the state machine
in `resume-tailor-stack.ts`), and in every reachable timed execution whose
elapsed time has reached the timeout the job is terminal — no job remains
non-terminal past 15 minutes of execution. -/
theorem job_timeout_forces_terminal (t : TimedJob) (h : TimedReachable t)
    (hexp : stateMachineTimeoutMinutes ≤ t.elapsedMinutes) :
    stateMachineTimeoutMinutes = 15 ∧ t.job.stage.isTerminal = true :=
  ⟨rfl, timed_invariant t h hexp⟩

/-- C10: every Lambda function created by the stack — the six stage
handlers and the API handler, seven in all — carries the environment entry
ARTIFACT_TTL_DAYS = "7", for every resolution of the deploy-time resource
names. -/
theorem artifact_ttl_uniform (n : ResourceNames) :
    ((resumeTailorStackLambdas n).all
      (fun fn => envLookup fn.environment "ARTIFACT_TTL_DAYS" == some "7")) = true ∧
    (resumeTailorStackLambdas n).length = 7 := by
  constructor <;> rfl

/-! ## Witnesses. -/

/-- Witness for C2 at the concrete failing report and fresh `VALIDATE`
job. -/
theorem quality_gate_iff_and_gapfill_witness :
    coverageGateThreshold = 7 / 10 ∧ keywordGateThreshold = 6 / 10 ∧
    (gatePasses demoFailingReport = true ↔
      (coverageGateThreshold ≤ demoFailingReport.jdCoverage ∧
       keywordGateThreshold ≤ demoFailingReport.atsKeywordScore ∧
       demoFailingReport.hallucinations = [])) ∧
    (gatePasses demoFailingReport = false →
      (step demoFreshValidateState (.validated demoFailingReport)).stage = .GENERATE ∧
      (step demoFreshValidateState (.validated demoFailingReport)).gapFillDirective =
        some (demoFailingReport.missingCoverageTargets,
              demoFailingReport.missingAtsKeywords) ∧
      (step demoFreshValidateState (.validated demoFailingReport)).stage ≠ .FAILED) :=
  quality_gate_iff_and_gapfill demoFailingReport demoFreshValidateState rfl rfl
    (by decide)

/-- Witness for C3 at the reachable two-cycle `VALIDATE` state. -/
theorem gapfill_cycle_bound_witness :
    demoValidateState.gapFillCount ≤ maxGapFillCycles ∧
    ((demoValidateState.stage = .VALIDATE ∧ demoValidateState.cancelRequested = false ∧
      demoValidateState.gapFillCount = maxGapFillCycles ∧
      gatePasses demoFailingReport = false) →
      (step demoValidateState (.validated demoFailingReport)).stage = .FAILED ∧
      (step demoValidateState (.validated demoFailingReport)).failureReason =
        some .QualityGateExceeded) :=
  gapfill_cycle_bound demoValidateState demoFailingReport demoValidateState_reachable

/-- Witness for C4 at the initial job and a stage success. -/
theorem stage_monotone_witness :
    ((step initialJob .stageSucceeded).stage = initialJob.stage ∨
     (step initialJob .stageSucceeded).stage = nextStage initialJob.stage ∨
     (step initialJob .stageSucceeded).stage = .FAILED ∨
     (step initialJob .stageSucceeded).stage = .CANCELLED ∨
     (initialJob.stage = .VALIDATE ∧
      (step initialJob .stageSucceeded).stage = .GENERATE)) ∧
    Stage.position (nextStage initialJob.stage) = Stage.position initialJob.stage + 1 ∧
    (step initialJob .timeoutExpired).stage = .FAILED ∧
    (step (step initialJob .cancelRequested) .stageSucceeded).stage = .CANCELLED :=
  stage_monotone initialJob .stageSucceeded rfl

/-- Witness for C7 at a fresh store whose `PARSE` call succeeds. -/
theorem dispatch_idempotent_witness :
    dispatch demoExec (dispatch demoExec demoStore .PARSE 1).1 .PARSE 1 =
      ((dispatch demoExec demoStore .PARSE 1).1, some "ok") ∧
    (dispatch demoExec demoStore .PARSE 1).1.executions.length =
      demoStore.executions.length + 1 ∧
    (dispatch demoExec demoStore .PARSE 1).1.jobStage = nextStage demoStore.jobStage :=
  dispatch_idempotent demoExec demoStore .PARSE 1 "ok" rfl rfl

/-- Witness for C8 at the concrete demonstration inputs. -/
theorem coverage_example_both_missing_witness :
    (evaluate demoCfg demoJd demoDoc demoCtx).jdCoverage = 0 ∧
    (evaluate demoCfg demoJd demoDoc demoCtx).missingCoverageTargets =
      ["Build data governance dashboards", "Define stakeholder communication cadences"] :=
  coverage_example_both_missing demoCfg demoJd demoDoc demoCtx rfl (by decide) (by decide)

/-- Witness for C9: a fresh execution on which 20 minutes elapse is
terminal. -/
theorem job_timeout_forces_terminal_witness :
    stateMachineTimeoutMinutes = 15 ∧
    (timedStep initialTimedJob (.elapse 20)).job.stage.isTerminal = true :=
  job_timeout_forces_terminal (timedStep initialTimedJob (.elapse 20))
    (TimedReachable.next initialTimedJob (.elapse 20) TimedReachable.init) (by decide)
